import Mathlib

/-!
Verification development for the marketing media planner repository.

The definitions below are a shallow embedding of `src/marketing_planner`:
the conversation state and its LangGraph reducer semantics (`state.py`),
the orchestrator nodes `call_agent_model`, `reflect`, `process_user_input`
and the routers `route_after_agent`, `route_after_checker` (`graph.py`),
and the `scrape_website` tool (`tools.py`).  External effects (the LLM,
the HTTP fetch) are passed in as explicit function arguments; fallible
Python code (attribute errors, index errors, raised `ValueError`s) is
embedded with `Except`.
-/

namespace MarketingPlanner

/-- A JSON-object argument payload of a tool call, as an association list
of string fields (mirrors the Python `dict` of `tool_call["args"]`,
preserving insertion order). -/
abbrev Args := List (String × String)

/-- A structured tool call emitted by the model:
`{"name": ..., "id": ..., "args": {...}}`. -/
structure ToolCall where
  name : String
  id : String
  args : Args
deriving Repr, DecidableEq

/-- Conversation messages: `HumanMessage`, `AIMessage` (the only kind
carrying a `tool_calls` attribute) and `ToolMessage` (carrying
`tool_call_id`, `name`, `content`, `status`), as in `langchain_core.messages`. -/
inductive Message where
  | human (content : String)
  | ai (content : String) (tool_calls : List ToolCall)
  | tool (tool_call_id : String) (name : String) (content : String) (status : String)
deriving Repr, DecidableEq

/-- The `EnhancedState` dataclass of `state.py`, with the dictionaries
modelled as insertion-ordered association lists. -/
structure EnhancedState where
  website_url : Option String := none
  messages : List Message := []
  marketing_plan : Option Args := none
  loop_step : Nat := 0
  awaiting_user_input : Bool := false
  plan_revision_count : Nat := 0
  user_preferences : List (String × String) := []
  last_question_context : Option String := none
  research_progress : List (String × Bool) :=
    [("website_analyzed", false), ("competitors_analyzed", false),
     ("channels_researched", false), ("budget_confirmed", false),
     ("timeline_confirmed", false)]
deriving Repr, DecidableEq

/-- A partial state update as returned by a graph node: a dict that may or
may not contain each key.  `none` means the key is absent from the returned
dict; for `messages` the empty list stands for an absent key (no node ever
returns an explicit empty message list). -/
structure StateUpdate where
  messages : List Message := []
  marketing_plan : Option (Option Args) := none
  loop_step : Option Nat := none
  awaiting_user_input : Option Bool := none
  plan_revision_count : Option Nat := none
  user_preferences : Option (List (String × String)) := none
  last_question_context : Option (Option String) := none
  research_progress : Option (List (String × Bool)) := none
deriving Repr, DecidableEq

/-- LangGraph reducer application, per the `Annotated` reducers of
`state.py`: `messages` uses `add_messages` (append, since the appended
messages carry no duplicate ids), `loop_step` and `plan_revision_count`
use `operator.add` (the returned value is ADDED to the channel), and every
other field is last-value-wins (overwritten when the key is present in the
returned dict, kept otherwise). -/
def applyUpdate (s : EnhancedState) (u : StateUpdate) : EnhancedState :=
  { s with
    messages := s.messages ++ u.messages
    marketing_plan := u.marketing_plan.getD s.marketing_plan
    loop_step := s.loop_step + u.loop_step.getD 0
    awaiting_user_input := u.awaiting_user_input.getD s.awaiting_user_input
    plan_revision_count := s.plan_revision_count + u.plan_revision_count.getD 0
    user_preferences := u.user_preferences.getD s.user_preferences
    last_question_context := u.last_question_context.getD s.last_question_context
    research_progress := u.research_progress.getD s.research_progress }

/-- Python truthiness of an optional dict: `None` and the empty dict are
falsy, a non-empty dict is truthy (used by `if response.is_satisfactory
and presumed_plan` and `if not state.marketing_plan`). -/
def dict_truthy : Option Args → Bool
  | none => false
  | some a => !a.isEmpty

/-- Python `d.get(k, default)` on an association list. -/
def dictGet (d : List (String × String)) (k : String) (default : String) : String :=
  match d.find? (fun p => p.1 == k) with
  | some p => p.2
  | none => default

/-- Python `k in d` on an association list. -/
def dictHas (d : List (String × String)) (k : String) : Bool :=
  (d.find? (fun p => p.1 == k)).isSome

/-- Python `d[k] = v` on an insertion-ordered dict: overwrite in place when
the key exists, append otherwise. -/
def dictSet (d : List (String × α)) (k : String) (v : α) : List (String × α) :=
  if (d.find? (fun p => p.1 == k)).isSome then
    d.map (fun p => if p.1 == k then (k, v) else p)
  else
    d ++ [(k, v)]

/-- Substring occurrence on character lists: `pat` occurs in `hay` iff it
is a prefix of some suffix of `hay`. -/
def containsSub : List Char → List Char → Bool
  | [], pat => pat.isEmpty
  | c :: t, pat => pat.isPrefixOf (c :: t) || containsSub t pat

/-- Python `pat in s` substring test. -/
def strContains (s pat : String) : Bool :=
  containsSub s.data pat.data

/-- Python `s.lower()` (character-wise lowercasing, as `str.lower` acts on
the ASCII keywords involved here). -/
def pyLower (s : String) : String :=
  ⟨s.data.map Char.toLower⟩

/-- Python `s.replace(" ", "_")`: with a single-character pattern this is a
character-wise map. -/
def spacesToUnderscores (s : String) : String :=
  ⟨s.data.map (fun c => if c == ' ' then '_' else c)⟩

/-- Membership test `tool_call["name"] in ["ManageMemory", "SearchMemory"]`. -/
def isMemName (n : String) : Bool :=
  n == "ManageMemory" || n == "SearchMemory"

/-- The `tool_calls` attribute access guarded by `hasattr` in `graph.py`
(lines 136 and 397): only AI messages have it; other messages contribute
nothing. -/
def msgToolCalls : Message → List ToolCall
  | .ai _ tcs => tcs
  | _ => []

/-- Number of memory tool calls (`ManageMemory`/`SearchMemory`) inside one
message's `tool_calls`. -/
def msgMemCalls (m : Message) : Nat :=
  ((msgToolCalls m).filter (fun tc => isMemName tc.name)).length

/-- The memory-tool-call counting loop shared by `call_agent_model`
(graph.py lines 130-139) and `route_after_agent` (lines 391-400):
`for idx in range(min(5, len(msgs)))`, reading `msgs[-(idx+1)]` and adding
the number of its `ManageMemory`/`SearchMemory` tool calls. -/
def count_memory_tool_calls (msgs : List Message) : Nat :=
  (List.range (min 5 msgs.length)).foldl
    (fun acc idx =>
      acc + (match msgs[msgs.length - (idx + 1)]? with
             | some m => msgMemCalls m
             | none => 0)) 0

/-- The tools that can be bound to the model in `call_agent_model`. -/
inductive Tool where
  | scrapeWebsiteTool
  | searchTool
  | analyzeWebsiteTool
  | marketingPlanTool
  | askUserInputTool
  | manageMemoryTool
  | searchMemoryTool
deriving Repr, DecidableEq

/-- The tool set bound in `call_agent_model` (graph.py lines 141-148): the
five base tools always, plus the two memory tools exactly when fewer than
3 memory tool calls were counted over the trailing messages. -/
def agentTools (s : EnhancedState) : List Tool :=
  let base := [Tool.scrapeWebsiteTool, Tool.searchTool, Tool.analyzeWebsiteTool,
               Tool.marketingPlanTool, Tool.askUserInputTool]
  if count_memory_tool_calls s.messages < 3 then
    base ++ [Tool.manageMemoryTool, Tool.searchMemoryTool]
  else
    base

/-- The model's raw response to `call_agent_model`: an `AIMessage` with
content and tool calls (the external LLM is a boundary dependency, so the
response is an input to the embedded node). -/
structure AIResponse where
  content : String
  tool_calls : List ToolCall
deriving Repr, DecidableEq

/-- The scanning loop of `call_agent_model` (graph.py lines 158-166): walk
the response's tool calls in order and stop at the first `MarketingPlan`
or `AskUserInput` call, producing `(marketing_plan, asking_user,
user_question)`. -/
def scanDecision : List ToolCall → Option Args × Bool × Option Args
  | [] => (none, false, none)
  | tc :: rest =>
    if tc.name == "MarketingPlan" then (some tc.args, false, none)
    else if tc.name == "AskUserInput" then (none, true, some tc.args)
    else scanDecision rest

/-- Python `next(tc for tc in tcs if tc["name"] == n)` (first match). -/
def firstNamed (n : String) (tcs : List ToolCall) : Option ToolCall :=
  tcs.find? (fun tc => tc.name == n)

/-- The `call_agent_model` node (graph.py lines 21-191), with the model's
response passed in explicitly.  Returns the node's update dict: the
appended message(s), `marketing_plan` (possibly `None` — the key is always
present), `awaiting_user_input`, `last_question_context`, and
`loop_step = state.loop_step + 1`. -/
def call_agent_model (s : EnhancedState) (response : AIResponse) : StateUpdate :=
  let scan := scanDecision response.tool_calls
  let marketing_plan : Option Args := scan.1
  let asking_user : Bool := scan.2.1
  let user_question : Option Args := scan.2.2
  let kept : List ToolCall :=
    if marketing_plan.isSome then
      (firstNamed "MarketingPlan" response.tool_calls).toList
    else if asking_user then
      (firstNamed "AskUserInput" response.tool_calls).toList
    else
      response.tool_calls
  let responseMsg := Message.ai response.content kept
  let response_messages : List Message :=
    if kept.isEmpty then
      [responseMsg, Message.human "Please respond by calling one of the provided tools."]
    else
      [responseMsg]
  let ctx : Option String :=
    match user_question with
    | some q => if asking_user && dictHas q "context" then some (dictGet q "context" "") else none
    | none => none
  { messages := response_messages
    marketing_plan := some marketing_plan
    awaiting_user_input := some asking_user
    last_question_context := some ctx
    loop_step := some (s.loop_step + 1) }

/-- The structured checker verdict `MarketingPlanIsSatisfactory`
(graph.py lines 194-206). -/
structure MarketingPlanIsSatisfactory where
  reason : List String
  is_satisfactory : Bool
  improvement_instructions : Option String
deriving Repr, DecidableEq

/-- Python `f"...{x}"` of an `Optional[str]`: `None` renders as "None". -/
def pyStr : Option String → String
  | none => "None"
  | some s => s

/-- The `reflect` node (graph.py lines 209-293), with the checker's
structured response passed in explicitly.  Raises (`Except.error`) when the
last message is not an AI message, when it has no tool calls, or when it
has no `MarketingPlan` call (`next` without default).  Otherwise increments
`plan_revision_count` by `state.plan_revision_count + 1` and either commits
the presumed plan with a success tool message, or emits an error tool
message, keyed to the original `MarketingPlan` call's id. -/
def reflect (s : EnhancedState) (response : MarketingPlanIsSatisfactory) :
    Except String StateUpdate :=
  match s.messages.getLast? with
  | none => .error "IndexError: messages is empty"
  | some last =>
    match last with
    | .ai _ tcs =>
      if tcs.isEmpty then
        .error "ValueError: reflect expects the last message to have tool_calls."
      else
        match firstNamed "MarketingPlan" tcs with
        | none => .error "StopIteration"
        | some mpCall =>
          let presumed_plan := s.marketing_plan
          let prc := s.plan_revision_count + 1
          if response.is_satisfactory && dict_truthy presumed_plan then
            .ok { marketing_plan := some presumed_plan
                  plan_revision_count := some prc
                  messages := [Message.tool mpCall.id "MarketingPlan"
                    (String.intercalate "\n" response.reason) "success"] }
          else
            .ok { messages := [Message.tool mpCall.id "MarketingPlan"
                    ("Unsatisfactory response:\n" ++ pyStr response.improvement_instructions)
                    "error"]
                  plan_revision_count := some prc }
    | _ => .error "ValueError: reflect expects the last message in the state to be an AI message with tool calls."

/-- Python `state.messages[-2] if len(state.messages) >= 2 else None`. -/
def secondLast (msgs : List Message) : Option Message :=
  if 2 ≤ msgs.length then msgs[msgs.length - 2]? else none

/-- The `process_user_input` node (graph.py lines 296-370).  The guard
`not state.awaiting_user_input or not second_last_message or not
second_last_message.tool_calls` short-circuits left to right; when it
reaches `second_last_message.tool_calls` on a message kind without that
attribute (a human or tool message) the Python node raises
`AttributeError`.  Otherwise the node classifies the asked question by
keyword and returns the corresponding update dict, clearing
`awaiting_user_input` in every branch. -/
def process_user_input (s : EnhancedState) : Except String StateUpdate :=
  if !s.awaiting_user_input then
    .ok { awaiting_user_input := some false }
  else
    match secondLast s.messages with
    | none => .ok { awaiting_user_input := some false }
    | some (.human _) => .error "AttributeError: HumanMessage object has no attribute tool_calls"
    | some (.tool _ _ _ _) => .error "AttributeError: ToolMessage object has no attribute tool_calls"
    | some (.ai _ tcs) =>
      if tcs.isEmpty then
        .ok { awaiting_user_input := some false }
      else
        match firstNamed "AskUserInput" tcs with
        | none => .ok { awaiting_user_input := some false }
        | some tc =>
          let user_response : String :=
            match s.messages.getLast? with
            | some (.human c) => c
            | _ => ""
          let question := dictGet tc.args "question" ""
          let context := dictGet tc.args "context" ""
          let ql := pyLower question
          if strContains ql "budget" then
            .ok { user_preferences := some (dictSet s.user_preferences "budget" user_response)
                  research_progress := some (dictSet s.research_progress "budget_confirmed" true)
                  awaiting_user_input := some false }
          else if strContains ql "timeline" || strContains ql "launch" then
            .ok { user_preferences := some (dictSet s.user_preferences "timeline" user_response)
                  research_progress := some (dictSet s.research_progress "timeline_confirmed" true)
                  awaiting_user_input := some false }
          else if strContains ql "channel" || strContains ql "platform" then
            .ok { user_preferences := some (dictSet s.user_preferences "preferred_channels" user_response)
                  awaiting_user_input := some false }
          else if strContains ql "goal" || strContains ql "objective" then
            .ok { user_preferences := some (dictSet s.user_preferences "marketing_goals" user_response)
                  awaiting_user_input := some false }
          else if strContains ql "industry" || strContains ql "business" then
            .ok { research_progress := some (dictSet s.research_progress "website_analyzed" true)
                  awaiting_user_input := some false }
          else
            let key := if context.isEmpty then "user_input" else spacesToUnderscores (pyLower context)
            .ok { user_preferences := some (dictSet s.user_preferences key user_response)
                  awaiting_user_input := some false }

/-- The routing targets of the graph's conditional edges. -/
inductive Route where
  | reflectNode
  | toolsNode
  | processUserInputNode
  | callAgentModelNode
  | endNode
deriving Repr, DecidableEq

/-- The `route_after_agent` router (graph.py lines 374-416).  Reading
`state.messages[-1]` on an empty list raises `IndexError`. -/
def route_after_agent (s : EnhancedState) : Except String Route :=
  match s.messages.getLast? with
  | none => .error "IndexError: messages is empty"
  | some last =>
    match last with
    | .ai _ tcs =>
      match tcs with
      | [] => .ok .toolsNode
      | tc0 :: _ =>
        let tool_name := tc0.name
        let cnt := count_memory_tool_calls s.messages
        if 3 ≤ cnt && isMemName tool_name then .ok .callAgentModelNode
        else if tool_name == "MarketingPlan" then .ok .reflectNode
        else if tool_name == "AskUserInput" then .ok .endNode
        else .ok .toolsNode
    | _ =>
      if s.awaiting_user_input then .ok .processUserInputNode
      else .ok .callAgentModelNode

/-- The `route_after_checker` router (graph.py lines 426-446).  It reads
`state.messages[-1]` unconditionally, then terminates whenever
`loop_step >= max_loops`; below the bound it returns to the agent when the
stored plan is falsy (absent or empty) or the last tool message has error
status, terminates on any other tool-message status, and raises when a
truthy plan is stored but the last message is not a tool message. -/
def route_after_checker (s : EnhancedState) (max_loops : Nat) : Except String Route :=
  match s.messages.getLast? with
  | none => .error "IndexError: messages is empty"
  | some last =>
    if s.loop_step < max_loops then
      if !dict_truthy s.marketing_plan then .ok .callAgentModelNode
      else
        match last with
        | .tool _ _ _ status =>
          if status == "error" then .ok .callAgentModelNode else .ok .endNode
        | _ => .error "ValueError: route_after_checker expected a tool message."
    else
      .ok .endNode

/-- An HTTP response as delivered by `aiohttp`: a status code and a body.
`session.get` raises only on transport failures; it does NOT raise on a
non-success status (no `raise_for_status` is set anywhere in `tools.py`),
and `response.text()` returns the body for any completed response. -/
structure HttpResponse where
  status : Nat
  body : String
deriving Repr, DecidableEq

/-- Stand-in for `json.dumps(state.marketing_plan, indent=2)`: `None`
renders as "null", a dict as a JSON object over its string fields. -/
def jsonDumps : Option Args → String
  | none => "null"
  | some kvs =>
    "\x7b" ++ String.intercalate ", " (kvs.map (fun kv => "\x22" ++ kv.1 ++ "\x22: \x22" ++ kv.2 ++ "\x22")) ++ "\x7d"

/-- The `_INFO_PROMPT` template of `tools.py`, with its three placeholders
substituted. -/
def INFO_PROMPT (info url content : String) : String :=
  "You are doing web research on behalf of a user. You are trying to find out this information:\n\n<info>\n"
  ++ info ++
  "\n</info>\n\nYou just scraped the following website: "
  ++ url ++
  "\n\nBased on the website content below, jot down some notes about the website.\n\n<Website content>\n"
  ++ content ++
  "\n</Website content>"

/-- The `scrape_website` tool (tools.py lines 51-73), with the HTTP fetch
and the LLM passed in explicitly.  The code awaits `response.text()`
without ever inspecting `response.status`, truncates the body to 40,000
characters, renders `_INFO_PROMPT` with the current plan as JSON, and
returns the model's text; only a raised fetch exception propagates. -/
def scrape_website (fetch : String → Except String HttpResponse)
    (llm : String → String) (s : EnhancedState) (url : String) :
    Except String String :=
  match fetch url with
  | .error e => .error e
  | .ok resp =>
    let content := resp.body
    let p := INFO_PROMPT (jsonDumps s.marketing_plan) url (content.take 40000)
    .ok (llm p)

/-!
Spec-side definitions.  Each of the following follows the wording of the
specification (not the code); they exist to be compared with the embedded
source functions above.
-/

/-- Modelled from the spec: the total number of `ManageMemory`/`SearchMemory`
tool calls appearing anywhere in the last (up to) 5 messages, stated
directly as a sum over the trailing window. -/
def memCallsInTrailing5 (msgs : List Message) : Nat :=
  ((msgs.reverse.take 5).map msgMemCalls).sum

/-- The tool-call names of the trailing (up to) 5 messages in chronological
order, flattened (used to formalise the spec's phrase "consecutive
memory-tool calls"). -/
def trailingToolCallNames (msgs : List Message) : List String :=
  ((msgs.reverse.take 5).reverse.map (fun m => (msgToolCalls m).map (·.name))).flatten

/-- Length of the longest run of consecutive memory-tool-call names in a
list of tool-call names (formalising the spec's "3 or more consecutive
memory-tool calls"). -/
def longestMemRun (names : List String) : Nat :=
  (names.foldl
    (fun acc n =>
      let cur := if isMemName n then acc.2 + 1 else 0
      (max acc.1 cur, cur)) ((0 : Nat), (0 : Nat))).1

/-- The question categories of the spec's keyword classifier. -/
inductive QuestionCategory where
  | budgetQ
  | timelineQ
  | channelsQ
  | goalsQ
  | industryQ
  | genericQ
deriving Repr, DecidableEq

/-- Modelled from the spec: classify a question by keyword matching on its
lowercased text, in the priority order budget, then timeline/launch, then
channel/platform, then goal/objective, then industry/business, then the
generic fallback. -/
def categorizeQuestion (question : String) : QuestionCategory :=
  let ql := pyLower question
  if strContains ql "budget" then .budgetQ
  else if strContains ql "timeline" || strContains ql "launch" then .timelineQ
  else if strContains ql "channel" || strContains ql "platform" then .channelsQ
  else if strContains ql "goal" || strContains ql "objective" then .goalsQ
  else if strContains ql "industry" || strContains ql "business" then .industryQ
  else .genericQ

/-- Modelled from the spec: the state update `process_user_input` must
produce for a pending question with text `question`, context `context` and
user reply `reply` — record the reply under the category's preference key
(budget also confirming the budget milestone, timeline confirming the
timeline milestone, industry/business only flipping `website_analyzed`
with no preference recorded), in the fallback deriving the key from the
context (lowercased, spaces to underscores, `"user_input"` when no context
is given), and clearing the awaiting-input flag in every branch. -/
def classifyUpdate (s : EnhancedState) (question context reply : String) : StateUpdate :=
  match categorizeQuestion question with
  | .budgetQ =>
    { user_preferences := some (dictSet s.user_preferences "budget" reply)
      research_progress := some (dictSet s.research_progress "budget_confirmed" true)
      awaiting_user_input := some false }
  | .timelineQ =>
    { user_preferences := some (dictSet s.user_preferences "timeline" reply)
      research_progress := some (dictSet s.research_progress "timeline_confirmed" true)
      awaiting_user_input := some false }
  | .channelsQ =>
    { user_preferences := some (dictSet s.user_preferences "preferred_channels" reply)
      awaiting_user_input := some false }
  | .goalsQ =>
    { user_preferences := some (dictSet s.user_preferences "marketing_goals" reply)
      awaiting_user_input := some false }
  | .industryQ =>
    { research_progress := some (dictSet s.research_progress "website_analyzed" true)
      awaiting_user_input := some false }
  | .genericQ =>
    let key := if context.isEmpty then "user_input" else spacesToUnderscores (pyLower context)
    { user_preferences := some (dictSet s.user_preferences key reply)
      awaiting_user_input := some false }

/-!
Concrete fixtures used by the counterexamples and witnesses below.
-/

/-- A `MarketingPlan` submission tool call. -/
def mpSubmissionCall : ToolCall :=
  ⟨"MarketingPlan", "m1", [("recommended_channels", "Google Ads")]⟩

/-- An `AskUserInput` tool call with a budget question and a context. -/
def askBudgetCall : ToolCall :=
  ⟨"AskUserInput", "a1", [("question", "What is your monthly budget?"), ("context", "budget planning")]⟩

/-- A model response submitting a marketing plan. -/
def submitResponse : AIResponse := ⟨"submitting", [mpSubmissionCall]⟩

/-- A model response whose tool calls list an `AskUserInput` call before a
`MarketingPlan` call. -/
def askFirstResponse : AIResponse := ⟨"both", [askBudgetCall, mpSubmissionCall]⟩

/-- A rejecting checker verdict with improvement text. -/
def rejectionVerdict : MarketingPlanIsSatisfactory :=
  ⟨["too vague", "no budget", "no channels"], false, some "Add budget detail"⟩

/-- An accepting checker verdict. -/
def satisfiedVerdict : MarketingPlanIsSatisfactory :=
  ⟨["complete", "targeted", "well budgeted"], true, none⟩

/-- The state reached from the empty state by one `call_agent_model` step
that submits a plan. -/
def stateAfterSubmission : EnhancedState :=
  applyUpdate {} (call_agent_model {} submitResponse)

/-- Five trailing messages whose memory-tool calls are interleaved with
other tool calls (no two consecutive). -/
def gateMsgs : List Message :=
  [Message.ai "a" [⟨"ManageMemory", "1", []⟩], Message.ai "b" [⟨"Search", "2", []⟩],
   Message.ai "c" [⟨"SearchMemory", "3", []⟩], Message.ai "d" [⟨"Search", "4", []⟩],
   Message.ai "e" [⟨"ManageMemory", "5", []⟩]]

/-- A single message carrying three memory-tool calls. -/
def memBurstMsg : Message :=
  Message.ai "m" [⟨"ManageMemory", "1", []⟩, ⟨"SearchMemory", "2", []⟩, ⟨"ManageMemory", "3", []⟩]

/-- A state holding a present-but-empty candidate plan whose last message
is an AI message with a `MarketingPlan` call. -/
def stEmptyPlan : EnhancedState :=
  { marketing_plan := some []
    plan_revision_count := 0
    messages := [Message.ai "c" [⟨"MarketingPlan", "m2", []⟩]] }

/-- A state below the loop bound with an empty-dict plan and a
success-status tool result as its last message. -/
def stC8 : EnhancedState :=
  { marketing_plan := some []
    loop_step := 0
    messages := [Message.tool "m1" "MarketingPlan" "ok" "success"] }

/-- A state at the loop bound with a truthy plan and a success tool result. -/
def stLoopsExhausted : EnhancedState :=
  { marketing_plan := some [("recommended_channels", "Google Ads")]
    loop_step := 6
    messages := [Message.tool "m1" "MarketingPlan" "ok" "success"] }

/-- An awaiting state whose second-to-last message is a tool message — a
message kind without a `tool_calls` attribute. -/
def stBadPrior : EnhancedState :=
  { awaiting_user_input := true
    messages := [Message.tool "t1" "Search" "r" "success", Message.human "hi"] }

/-- An awaiting state with a pending budget question and the user's reply. -/
def stBudgetQ : EnhancedState :=
  { awaiting_user_input := true
    messages := [Message.ai "q" [⟨"AskUserInput", "a1", [("question", "What is your monthly budget?")]⟩],
                 Message.human "$5,000/month"] }

/-- A state for exercising `reflect` with `plan_revision_count = 1`. -/
def stReflectOnce : EnhancedState :=
  { plan_revision_count := 1
    marketing_plan := some [("recommended_channels", "Google Ads")]
    messages := [Message.ai "c" [mpSubmissionCall]] }

/-!
Helper lemmas.
-/

/-- Folding addition over a list equals the starting value plus the sum of
the mapped list. -/
theorem foldl_add_eq_sum (g : Nat → Nat) (l : List Nat) (a : Nat) :
    l.foldl (fun acc i => acc + g i) a = a + (l.map g).sum := by
  induction l generalizing a with
  | nil => simp
  | cons i l ih => simp [List.foldl_cons, ih, Nat.add_assoc]

/-- Negative indexing `msgs[-(idx+1)]` matches indexing into the reverse. -/
theorem getElem?_neg_index (msgs : List Message) (idx : Nat) (h : idx < msgs.length) :
    msgs[msgs.length - (idx + 1)]? = msgs.reverse[idx]? := by
  rw [List.getElem?_reverse h, Nat.sub_sub, Nat.add_comm]

/-- Summing a function of the first `n` entries of a list via `range n`
equals summing over `l.take n`. -/
theorem sum_range_map_getElem (l : List Message) (f : Message → Nat) :
    ∀ n, n ≤ l.length →
      ((List.range n).map (fun i => match l[i]? with
        | some x => f x
        | none => 0)).sum = ((l.take n).map f).sum := by
  intro n
  induction n with
  | zero => simp
  | succ n ih =>
    intro h
    rw [List.range_succ, List.map_append, List.sum_append, ih (Nat.le_of_succ_le h),
      List.take_succ, List.map_append, List.sum_append]
    have hn : n < l.length := h
    simp [List.getElem?_eq_getElem hn]

/-- The shared counting loop equals the total number of memory-tool calls
over the trailing (up to) 5 messages. -/
theorem count_memory_eq_trailing5 (msgs : List Message) :
    count_memory_tool_calls msgs = memCallsInTrailing5 msgs := by
  unfold count_memory_tool_calls memCallsInTrailing5
  rw [foldl_add_eq_sum, Nat.zero_add]
  have hcong : (List.range (min 5 msgs.length)).map
      (fun idx => match msgs[msgs.length - (idx + 1)]? with
        | some m => msgMemCalls m
        | none => 0)
      = (List.range (min 5 msgs.length)).map
      (fun idx => match msgs.reverse[idx]? with
        | some m => msgMemCalls m
        | none => 0) := by
    apply List.map_congr_left
    intro i hi
    rw [getElem?_neg_index msgs i
      (Nat.lt_of_lt_of_le (List.mem_range.mp hi) (Nat.min_le_right 5 msgs.length))]
  rw [hcong, sum_range_map_getElem msgs.reverse msgMemCalls (min 5 msgs.length)
    (by rw [List.length_reverse]; exact Nat.min_le_right 5 msgs.length)]
  rcases Nat.le_total 5 msgs.length with h5 | h5
  · rw [Nat.min_eq_left h5]
  · rw [Nat.min_eq_right h5,
      List.take_of_length_le (by rw [List.length_reverse]),
      List.take_of_length_le (by rw [List.length_reverse]; exact h5)]

/-- Scanning skips tool calls that are neither `MarketingPlan` nor
`AskUserInput`. -/
theorem scanDecision_append_clean (pre : List ToolCall)
    (hpre : ∀ tc ∈ pre, tc.name ≠ "MarketingPlan" ∧ tc.name ≠ "AskUserInput")
    (rest : List ToolCall) :
    scanDecision (pre ++ rest) = scanDecision rest := by
  induction pre with
  | nil => rfl
  | cons tc pre ih =>
    have h := hpre tc (List.mem_cons_self tc pre)
    rw [List.cons_append]
    rw [show scanDecision (tc :: (pre ++ rest)) = scanDecision (pre ++ rest) by
      simp [scanDecision, h.1, h.2]]
    exact ih (fun tc' h' => hpre tc' (List.mem_cons_of_mem tc h'))

/-- When no tool call is named `MarketingPlan`, the scan yields no
candidate plan. -/
theorem scanDecision_no_mp (tcs : List ToolCall)
    (h : ∀ tc ∈ tcs, tc.name ≠ "MarketingPlan") :
    (scanDecision tcs).1 = none := by
  induction tcs with
  | nil => rfl
  | cons tc rest ih =>
    have h0 := h tc (List.mem_cons_self tc rest)
    by_cases ha : tc.name = "AskUserInput"
    · simp [scanDecision, h0, ha]
    · rw [show scanDecision (tc :: rest) = scanDecision rest by
        simp [scanDecision, h0, ha]]
      exact ih (fun tc' h' => h tc' (List.mem_cons_of_mem tc h'))

/-- The second-to-last element of `l ++ [a, b]` is `a`. -/
theorem secondLast_append (init : List Message) (a b : Message) :
    secondLast (init ++ [a, b]) = some a := by
  unfold secondLast
  rw [if_pos (by simp only [List.length_append, List.length_cons, List.length_nil]; omega)]
  have hlen : (init ++ [a, b]).length - 2 = init.length := by simp
  rw [hlen, List.getElem?_append_right (Nat.le_refl _)]
  simp

/-- The last element of `l ++ [a, b]` is `b`. -/
theorem getLast?_append_pair (init : List Message) (a b : Message) :
    (init ++ [a, b]).getLast? = some b := by
  rw [show init ++ [a, b] = (init ++ [a]) ++ [b] by simp]
  exact List.getLast?_concat _

/-!
Claim theorems.
-/

/-- C1: the claim asserts that each `call_agent_model` invocation increases
`loop_step` by exactly 1 and each `reflect` invocation increases
`plan_revision_count` by exactly 1.  The code instead returns
`state.counter + 1` into an `operator.add` channel, so the merged value is
`2 * old + 1`: the increase is `old + 1`, which is 1 only when the counter
was 0.  Concretely, from `loop_step = 1` one agent decision yields 3, and
from `plan_revision_count = 1` one checker evaluation yields 3. -/
theorem counter_updates_double_under_additive_merge :
    (∀ (s : EnhancedState) (r : AIResponse),
      (applyUpdate s (call_agent_model s r)).loop_step = 2 * s.loop_step + 1)
    ∧ (applyUpdate { loop_step := 1 } (call_agent_model { loop_step := 1 } ⟨"hi", []⟩)).loop_step = 3
    ∧ (reflect stReflectOnce satisfiedVerdict).map
        (fun u => (applyUpdate stReflectOnce u).plan_revision_count) = .ok 3 := by
  refine ⟨fun s r => ?_, by decide, by rfl⟩
  simp [call_agent_model, applyUpdate]
  omega

/-- C2 counterexample: a URL whose fetch completes with HTTP status 404
does not propagate a tool-execution failure — `scrape_website` returns a
synthesized summary of the 404 response body (the code never reads
`response.status`, and `aiohttp` does not raise on non-success statuses). -/
theorem scrape_website_summarizes_404 :
    scrape_website (fun _ => .ok ⟨404, "Not Found"⟩) (fun p => p) {} "http://example.com"
      = .ok (INFO_PROMPT "null" "http://example.com" (String.take "Not Found" 40000)) := rfl

/-- C2 amended: `scrape_website` never inspects the HTTP status code —
every fetch that completes, whatever its status, has its body truncated to
40,000 characters, templated into the info prompt with the current plan as
JSON, and summarized by the model; only a raised fetch exception
propagates as a tool-execution failure. -/
theorem scrape_website_summarizes_any_completed_response
    (fetch : String → Except String HttpResponse) (llm : String → String)
    (s : EnhancedState) (url : String) (resp : HttpResponse)
    (hfetch : fetch url = .ok resp) :
    scrape_website fetch llm s url
      = .ok (llm (INFO_PROMPT (jsonDumps s.marketing_plan) url (resp.body.take 40000))) := by
  simp [scrape_website, hfetch]

/-- Witness for C2's amended theorem: a completed 500 response is
summarized. -/
theorem scrape_website_summarizes_any_completed_response_witness :
    scrape_website (fun _ => .ok ⟨500, "oops"⟩) (fun p => p) {} "http://e"
      = .ok (INFO_PROMPT (jsonDumps (none : Option Args)) "http://e" (String.take "oops" 40000)) :=
  scrape_website_summarizes_any_completed_response
    (fun _ => .ok ⟨500, "oops"⟩) (fun p => p) {} "http://e" ⟨500, "oops"⟩ rfl

/-- C9: the claim says `process_user_input` no-ops (only clearing the
awaiting flag) and does not fail whenever the prior asking message carries
no `AskUserInput` call.  The code instead evaluates
`second_last_message.tool_calls` without the `hasattr` guard used
elsewhere in `graph.py`, so a prior message without that attribute (here a
`ToolMessage`; the same holds for a `HumanMessage`) raises
`AttributeError` and the node fails. -/
theorem process_user_input_attribute_error_on_non_ai_prior :
    stBadPrior.awaiting_user_input = true
    ∧ secondLast stBadPrior.messages = some (Message.tool "t1" "Search" "r" "success")
    ∧ process_user_input stBadPrior
        = .error "AttributeError: ToolMessage object has no attribute tool_calls" :=
  ⟨rfl, rfl, rfl⟩

/-- C10: the memory-gating count used by `call_agent_model` and
`route_after_agent` totals every `ManageMemory`/`SearchMemory` tool call
anywhere in the last 5 messages: it equals the sum of per-message memory
calls over the trailing window, it reaches 3 on three non-consecutive
memory calls interleaved with other tool calls, it reaches 3 on three
memory calls inside a single message, and in both situations the memory
tools are withheld from the bound tool set. -/
theorem memory_count_totals_last_five_messages :
    (∀ msgs : List Message, count_memory_tool_calls msgs = memCallsInTrailing5 msgs)
    ∧ count_memory_tool_calls gateMsgs = 3
    ∧ count_memory_tool_calls [memBurstMsg] = 3
    ∧ agentTools { messages := [memBurstMsg] }
        = [Tool.scrapeWebsiteTool, Tool.searchTool, Tool.analyzeWebsiteTool,
           Tool.marketingPlanTool, Tool.askUserInputTool]
    ∧ agentTools { messages := gateMsgs }
        = [Tool.scrapeWebsiteTool, Tool.searchTool, Tool.analyzeWebsiteTool,
           Tool.marketingPlanTool, Tool.askUserInputTool] :=
  ⟨count_memory_eq_trailing5, by decide, by decide, by decide, by decide⟩

/-- C3 counterexample: the claim says a `MarketingPlan` call becomes the
candidate plan regardless of its position, even when an `AskUserInput`
call precedes it.  In the code the scanning loop breaks at the FIRST
`MarketingPlan`-or-`AskUserInput` call, so with tool calls
`[AskUserInput, MarketingPlan]` the update carries no candidate plan
(`marketing_plan` is written `None`), keeps only the `AskUserInput` call,
and sets the awaiting flag. -/
theorem askuserinput_preempts_marketingplan :
    call_agent_model {} askFirstResponse
      = { messages := [Message.ai "both" [askBudgetCall]]
          marketing_plan := some none
          awaiting_user_input := some true
          last_question_context := some (some "budget planning")
          loop_step := some 1 } := by decide

/-- C3 amended: `call_agent_model` acts on the first `MarketingPlan` or
`AskUserInput` call in the response's tool-call order.  When the first
such call is a `MarketingPlan` call (no `AskUserInput` precedes it), its
arguments become the candidate plan, all other tool calls are discarded
keeping only that call, and the awaiting flag is cleared; when an
`AskUserInput` call comes first, only it is kept and no candidate plan is
taken (as in the counterexample). -/
theorem first_marketingplan_without_earlier_ask_becomes_plan
    (s : EnhancedState) (content : String) (pre post : List ToolCall) (mpc : ToolCall)
    (hpre : ∀ tc ∈ pre, tc.name ≠ "MarketingPlan" ∧ tc.name ≠ "AskUserInput")
    (hname : mpc.name = "MarketingPlan") :
    call_agent_model s ⟨content, pre ++ mpc :: post⟩
      = { messages := [Message.ai content [mpc]]
          marketing_plan := some (some mpc.args)
          awaiting_user_input := some false
          last_question_context := some none
          loop_step := some (s.loop_step + 1) } := by
  have hscan : scanDecision (pre ++ mpc :: post) = (some mpc.args, false, none) := by
    rw [scanDecision_append_clean pre hpre]
    simp [scanDecision, hname]
  have hfind : firstNamed "MarketingPlan" (pre ++ mpc :: post) = some mpc := by
    unfold firstNamed
    rw [List.find?_append]
    have hnone : pre.find? (fun tc => tc.name == "MarketingPlan") = none :=
      List.find?_eq_none.mpr (fun tc h => by simp [(hpre tc h).1])
    rw [hnone]
    simp [List.find?_cons, hname]
  simp [call_agent_model, hscan, hfind]

/-- Witness for C3's amended theorem: a `Search` call followed by a
`MarketingPlan` call (with a trailing `AskUserInput` call) collapses to
the `MarketingPlan` call alone and yields its arguments as the candidate
plan. -/
theorem first_marketingplan_without_earlier_ask_becomes_plan_witness :
    call_agent_model {} ⟨"go", [⟨"Search", "s1", []⟩] ++ mpSubmissionCall :: [askBudgetCall]⟩
      = { messages := [Message.ai "go" [mpSubmissionCall]]
          marketing_plan := some (some mpSubmissionCall.args)
          awaiting_user_input := some false
          last_question_context := some none
          loop_step := some 1 } :=
  first_marketingplan_without_earlier_ask_becomes_plan {} "go"
    [⟨"Search", "s1", []⟩] [askBudgetCall] mpSubmissionCall (by decide) rfl

/-- C4 counterexample: the claim says that after `reflect` rejects a
candidate plan, the state holds no committed plan.  In fact the candidate
written into state by the submitting `call_agent_model` step survives
rejection: `reflect`'s rejection update omits the `marketing_plan` key, so
the state reached by submit-then-reject still carries the rejected
candidate in `marketing_plan`. -/
theorem rejected_candidate_plan_persists :
    stateAfterSubmission.marketing_plan = some [("recommended_channels", "Google Ads")]
    ∧ rejectionVerdict.is_satisfactory = false
    ∧ (reflect stateAfterSubmission rejectionVerdict).map
        (fun u => (applyUpdate stateAfterSubmission u).marketing_plan)
      = .ok (some [("recommended_channels", "Google Ads")]) :=
  ⟨by decide, rfl, by rfl⟩

/-- C4 amended: `marketing_plan` is non-absent from the moment the agent
submits a candidate (pending evaluation) and after acceptance; rejection
leaves the field unchanged, so a rejected candidate remains stored until
the next `call_agent_model` decision, whose update always writes the key
and clears it to `None` whenever the response contains no `MarketingPlan`
call. -/
theorem rejection_preserves_plan_and_next_decision_overwrites
    (s : EnhancedState) (resp : MarketingPlanIsSatisfactory)
    (c : String) (tcs : List ToolCall)
    (hlast : s.messages.getLast? = some (Message.ai c tcs))
    (hmp : (firstNamed "MarketingPlan" tcs).isSome)
    (hrej : resp.is_satisfactory = false) :
    (reflect s resp).map (fun u => (applyUpdate s u).marketing_plan) = .ok s.marketing_plan
    ∧ ∀ (s' : EnhancedState) (r : AIResponse),
        (∀ tc ∈ r.tool_calls, tc.name ≠ "MarketingPlan") →
        (applyUpdate s' (call_agent_model s' r)).marketing_plan = none := by
  constructor
  · obtain ⟨mpc, hm⟩ := Option.isSome_iff_exists.mp hmp
    have hne : tcs.isEmpty = false := by
      cases tcs with
      | nil => simp [firstNamed] at hm
      | cons hd tl => rfl
    unfold reflect
    rw [hlast]
    simp only [hne, Bool.false_eq_true, if_false, hm, hrej]
    simp [applyUpdate, Except.map]
  · intro s' r h
    have hfst := scanDecision_no_mp r.tool_calls h
    simp [call_agent_model, applyUpdate, hfst]

/-- Witness for C4's amended theorem: rejecting the concrete submitted
plan leaves it in state, and a follow-up decision with only a `Search`
call clears the field. -/
theorem rejection_preserves_plan_and_next_decision_overwrites_witness :
    (reflect stateAfterSubmission rejectionVerdict).map
        (fun u => (applyUpdate stateAfterSubmission u).marketing_plan)
      = .ok stateAfterSubmission.marketing_plan
    ∧ (applyUpdate stateAfterSubmission
        (call_agent_model stateAfterSubmission ⟨"next", [⟨"Search", "s1", []⟩]⟩)).marketing_plan
      = none := by
  have h := rejection_preserves_plan_and_next_decision_overwrites
    stateAfterSubmission rejectionVerdict "submitting" [mpSubmissionCall]
    (by decide) (by decide) rfl
  exact ⟨h.1, h.2 stateAfterSubmission ⟨"next", [⟨"Search", "s1", []⟩]⟩ (by decide)⟩

/-- C5 counterexample: the claim predicts that with fewer than 3
consecutive memory-tool calls in the trailing 5 messages the memory tools
are included.  In `gateMsgs` the memory calls are interleaved with other
tool calls — the longest consecutive run is 1 — yet the gate counts 3 in
total and the bound tool set excludes both memory tools. -/
theorem memory_gate_fires_without_consecutive_calls :
    longestMemRun (trailingToolCallNames gateMsgs) = 1
    ∧ agentTools { messages := gateMsgs }
        = [Tool.scrapeWebsiteTool, Tool.searchTool, Tool.analyzeWebsiteTool,
           Tool.marketingPlanTool, Tool.askUserInputTool] := by decide

/-- C5 amended: the gate thresholds on the TOTAL number of memory-tool
calls in the trailing 5 messages, consecutive or not: below 3 the two
memory tools are bound, at 3 or more they are withheld, and
`route_after_agent` forces a return to `call_agent_model` whenever the
count is at least 3 and the latest decision's chosen (first) tool call is
a memory tool. -/
theorem memory_gate_threshold_on_total_count (s : EnhancedState) :
    (count_memory_tool_calls s.messages < 3 →
      agentTools s = [Tool.scrapeWebsiteTool, Tool.searchTool, Tool.analyzeWebsiteTool,
        Tool.marketingPlanTool, Tool.askUserInputTool,
        Tool.manageMemoryTool, Tool.searchMemoryTool])
    ∧ (3 ≤ count_memory_tool_calls s.messages →
      agentTools s = [Tool.scrapeWebsiteTool, Tool.searchTool, Tool.analyzeWebsiteTool,
        Tool.marketingPlanTool, Tool.askUserInputTool])
    ∧ (∀ (c : String) (tc : ToolCall) (rest : List ToolCall),
        s.messages.getLast? = some (Message.ai c (tc :: rest)) →
        3 ≤ count_memory_tool_calls s.messages →
        isMemName tc.name = true →
        route_after_agent s = .ok .callAgentModelNode) := by
  refine ⟨fun h => ?_, fun h => ?_, fun c tc rest hlast hcnt hmem => ?_⟩
  · simp [agentTools, h]
  · simp [agentTools, Nat.not_lt.mpr h]
  · unfold route_after_agent
    rw [hlast]
    simp [hmem, hcnt]

/-- Witness for C5's amended theorem: with the interleaved memory calls of
`gateMsgs` (count 3, last decision choosing `ManageMemory`) the tool set
is the memory-free base set and routing returns to the agent. -/
theorem memory_gate_threshold_on_total_count_witness :
    agentTools { messages := gateMsgs }
      = [Tool.scrapeWebsiteTool, Tool.searchTool, Tool.analyzeWebsiteTool,
         Tool.marketingPlanTool, Tool.askUserInputTool]
    ∧ route_after_agent { messages := gateMsgs } = .ok .callAgentModelNode := by
  have h := memory_gate_threshold_on_total_count { messages := gateMsgs }
  exact ⟨h.2.1 (by decide), h.2.2 "e" ⟨"ManageMemory", "5", []⟩ [] (by decide) (by decide) rfl⟩

/-- C6: for a pending `AskUserInput` question and a human reply,
`process_user_input` classifies the question by keyword matching on its
lowercased text in the priority order budget, timeline/launch,
channel/platform, goal/objective, industry/business, generic fallback;
records the reply under the corresponding preference key (budget also
confirming the budget milestone, timeline/launch the timeline milestone,
industry/business only flipping `website_analyzed` with no preference
recorded); in the fallback derives the key from the lowercased context
with spaces replaced by underscores (key `"user_input"` when no context is
given); and clears the awaiting flag in every branch — exactly the
spec-side `classifyUpdate`. -/
theorem process_user_input_keyword_classification
    (s : EnhancedState) (init : List Message) (c reply : String)
    (tcs : List ToolCall) (ask : ToolCall)
    (hmsgs : s.messages = init ++ [Message.ai c tcs, Message.human reply])
    (haw : s.awaiting_user_input = true)
    (hask : firstNamed "AskUserInput" tcs = some ask) :
    process_user_input s =
      .ok (classifyUpdate s (dictGet ask.args "question" "") (dictGet ask.args "context" "") reply) := by
  have hne : tcs.isEmpty = false := by
    cases tcs with
    | nil => simp [firstNamed] at hask
    | cons hd tl => rfl
  unfold process_user_input
  rw [haw, hmsgs, secondLast_append, getLast?_append_pair]
  simp only [Bool.not_true, Bool.false_eq_true, if_false, hne, hask,
    classifyUpdate, categorizeQuestion]
  by_cases h1 : strContains (pyLower (dictGet ask.args "question" "")) "budget"
  · simp [h1]
  · simp only [h1]
    by_cases h2 : (strContains (pyLower (dictGet ask.args "question" "")) "timeline"
        || strContains (pyLower (dictGet ask.args "question" "")) "launch")
    · simp [h2]
    · simp only [h2]
      by_cases h3 : (strContains (pyLower (dictGet ask.args "question" "")) "channel"
          || strContains (pyLower (dictGet ask.args "question" "")) "platform")
      · simp [h3]
      · simp only [h3]
        by_cases h4 : (strContains (pyLower (dictGet ask.args "question" "")) "goal"
            || strContains (pyLower (dictGet ask.args "question" "")) "objective")
        · simp [h4]
        · simp only [h4]
          by_cases h5 : (strContains (pyLower (dictGet ask.args "question" "")) "industry"
              || strContains (pyLower (dictGet ask.args "question" "")) "business")
          · simp [h5]
          · simp [h5]

/-- Witness for C6: the spec's budget example — the reply is stored under
`user_preferences["budget"]`, `budget_confirmed` is flipped, and the
awaiting flag is cleared. -/
theorem process_user_input_keyword_classification_witness :
    process_user_input stBudgetQ
      = .ok { user_preferences := some [("budget", "$5,000/month")]
              research_progress := some [("website_analyzed", false), ("competitors_analyzed", false),
                ("channels_researched", false), ("budget_confirmed", true), ("timeline_confirmed", false)]
              awaiting_user_input := some false } := by
  have h := process_user_input_keyword_classification stBudgetQ []
    "q" "$5,000/month" [⟨"AskUserInput", "a1", [("question", "What is your monthly budget?")]⟩]
    ⟨"AskUserInput", "a1", [("question", "What is your monthly budget?")]⟩ rfl rfl rfl
  rw [h]
  rfl

/-- C7 counterexample: the claim says `reflect` commits exactly when the
verdict is satisfactory and a candidate plan is present.  With a
present-but-empty candidate plan (`marketing_plan = {}`, which the
`MarketingPlan` schema permits since it has no required fields) and a
satisfactory verdict, the Python truthiness test `response.is_satisfactory
and presumed_plan` fails: the plan is not committed and an error-status
tool message is emitted instead of the success message. -/
theorem satisfactory_verdict_present_empty_plan_not_committed :
    stEmptyPlan.marketing_plan.isSome = true
    ∧ satisfiedVerdict.is_satisfactory = true
    ∧ reflect stEmptyPlan satisfiedVerdict
        = .ok { messages := [Message.tool "m2" "MarketingPlan" "Unsatisfactory response:\nNone" "error"]
                plan_revision_count := some 1 } :=
  ⟨rfl, rfl, rfl⟩

/-- C7 amended: `reflect` commits the candidate plan and emits a
success-status tool-result echoing the original `MarketingPlan` call's id
and carrying the joined reasoning text exactly when the verdict is
satisfactory AND the stored candidate plan is truthy (present and
non-empty); otherwise the update omits the plan key — leaving the stored
plan unchanged — and emits an error-status tool-result carrying the
improvement instructions. -/
theorem reflect_commits_iff_satisfactory_and_truthy_plan
    (s : EnhancedState) (resp : MarketingPlanIsSatisfactory)
    (c : String) (tcs : List ToolCall) (mpCall : ToolCall)
    (hlast : s.messages.getLast? = some (Message.ai c tcs))
    (hfind : firstNamed "MarketingPlan" tcs = some mpCall) :
    (reflect s resp).map (fun u => u.marketing_plan)
      = .ok (if resp.is_satisfactory && dict_truthy s.marketing_plan
             then some s.marketing_plan else none)
    ∧ (reflect s resp).map (fun u => u.messages)
      = .ok [if resp.is_satisfactory && dict_truthy s.marketing_plan then
               Message.tool mpCall.id "MarketingPlan"
                 (String.intercalate "\n" resp.reason) "success"
             else
               Message.tool mpCall.id "MarketingPlan"
                 ("Unsatisfactory response:\n" ++ pyStr resp.improvement_instructions) "error"]
    ∧ ((resp.is_satisfactory && dict_truthy s.marketing_plan) = false →
        (reflect s resp).map (fun u => (applyUpdate s u).marketing_plan) = .ok s.marketing_plan) := by
  have hne : tcs.isEmpty = false := by
    cases tcs with
    | nil => simp [firstNamed] at hfind
    | cons hd tl => rfl
  unfold reflect
  rw [hlast]
  simp only [hne, Bool.false_eq_true, if_false, hfind]
  cases hcond : resp.is_satisfactory && dict_truthy s.marketing_plan with
  | true => simp [Except.map, applyUpdate]
  | false => simp [Except.map, applyUpdate]

/-- Witness for C7's amended theorem: a satisfactory verdict over a truthy
stored candidate commits the plan. -/
theorem reflect_commits_iff_satisfactory_and_truthy_plan_witness :
    (reflect stReflectOnce satisfiedVerdict).map (fun u => u.marketing_plan)
      = .ok (some stReflectOnce.marketing_plan) := by
  have h := reflect_commits_iff_satisfactory_and_truthy_plan
    stReflectOnce satisfiedVerdict "c" [mpSubmissionCall] mpSubmissionCall (by decide) (by decide)
  simpa using h.1

/-- C8 counterexample: the claim says that below the loop bound
`route_after_checker` terminates on a success-status tool-result (when a
plan exists).  With a present-but-empty plan (`marketing_plan = {}`) the
truthiness test `not state.marketing_plan` routes back to
`call_agent_model` even though the last tool-result has success status. -/
theorem route_after_checker_success_with_empty_plan_loops :
    stC8.marketing_plan = some []
    ∧ stC8.loop_step < 6
    ∧ stC8.messages.getLast? = some (Message.tool "m1" "MarketingPlan" "ok" "success")
    ∧ route_after_checker stC8 6 = .ok .callAgentModelNode :=
  ⟨rfl, by decide, rfl, rfl⟩

/-- C8 amended: with `loop_step >= max_loops`, `route_after_checker`
terminates regardless of the stored plan and of the last message's kind or
status; below the bound it returns to `call_agent_model` when the stored
plan is falsy (absent or empty) — regardless of the last message — and
with a truthy plan it returns to `call_agent_model` on an error-status
tool-result and terminates on any other status (in particular success). -/
theorem route_after_checker_full_behavior (s : EnhancedState) (maxL : Nat)
    (hne : s.messages ≠ []) :
    (maxL ≤ s.loop_step → route_after_checker s maxL = .ok .endNode)
    ∧ (s.loop_step < maxL → dict_truthy s.marketing_plan = false →
        route_after_checker s maxL = .ok .callAgentModelNode)
    ∧ (∀ (tcid n cont status : String), s.loop_step < maxL →
        dict_truthy s.marketing_plan = true →
        s.messages.getLast? = some (Message.tool tcid n cont status) →
        route_after_checker s maxL
          = .ok (if status == "error" then .callAgentModelNode else .endNode)) := by
  obtain ⟨last, hlast⟩ : ∃ l, s.messages.getLast? = some l := by
    cases h : s.messages.getLast? with
    | none => exact absurd (List.getLast?_eq_none_iff.mp h) hne
    | some l => exact ⟨l, rfl⟩
  refine ⟨fun h1 => ?_, fun h1 h2 => ?_, fun tcid n cont status h1 h2 h3 => ?_⟩
  · unfold route_after_checker
    rw [hlast]
    simp [Nat.not_lt.mpr h1]
  · unfold route_after_checker
    rw [hlast]
    simp [h1, h2]
  · unfold route_after_checker
    rw [h3]
    simp only [h1, if_true, h2, Bool.not_true, Bool.false_eq_true, if_false]
    cases hst : status == "error" <;> simp [hst]

/-- Witness for C8's amended theorem: at the bound the run terminates even
on a success-status result, and below the bound an empty-dict plan routes
back to the agent. -/
theorem route_after_checker_full_behavior_witness :
    route_after_checker stLoopsExhausted 6 = .ok .endNode
    ∧ route_after_checker stC8 6 = .ok .callAgentModelNode := by
  have h1 := route_after_checker_full_behavior stLoopsExhausted 6 (by decide)
  have h2 := route_after_checker_full_behavior stC8 6 (by decide)
  exact ⟨h1.1 (by decide), h2.2.1 (by decide) (by decide)⟩

end MarketingPlanner
